import Mathlib

/-!
# Verification of the dim library catalog core

Shallow embedding of the library data-access layer (`src/database/src/library.rs`)
and the event-message model (`src/src/events/src/lib.rs`) of the dim media
manager, together with theorems settling the specified properties.

Modelling conventions:
* The relational backend is a `DB` value holding the `library` and
  `indexed_paths` tables as lists of rows; a `Backend` pairs it with a
  `failing` flag that models a lower-level storage failure (connectivity),
  making every fetch/execute return `StorageError`.
* Each SQL statement appearing in `library.rs` is a `DB.*` function.
* Statements executed on `conn` in the Rust code run against the shared,
  committed database state and autocommit individually: `conn` is a
  connection pool, and the `Transaction` values created by `conn.begin()`
  in `get_one` and `insert` never have a statement routed through them,
  so the `BEGIN`/`COMMIT` pair on the transaction's own pooled connection
  does not cover any of the reads or writes.  The model therefore threads
  the committed `DB` state directly through each statement.
* Errors use the spec's taxonomy (`NotFound`, `StorageError`, `DecodeError`);
  the crate's `DatabaseError` type itself lives outside the provided sources.
-/

deriving instance DecidableEq for Except

namespace Dim

/-- Error taxonomy.  Modelled from the spec: the crate's `DatabaseError`
definition (and its mapping of an empty `fetch_one` result to a not-found
error) is not among the provided sources; the spec's §7 taxonomy is
`NotFound`, `StorageError`, `DecodeError`. -/
inductive DatabaseError where
  | NotFound
  | StorageError
  | DecodeError
deriving Repr, DecidableEq

/-- `MediaType` enum from `library.rs`: a closed set of three content kinds. -/
inductive MediaType where
  | Movie
  | Tv
  | Episode
deriving Repr, DecidableEq

/-- The lowercase wire/storage token of a `MediaType`: the
`#[serde(rename_all = "lowercase")]` / `#[sqlx(rename_all = "lowercase")]`
attributes and the `fmt::Display` impl all produce the same text. -/
def MediaType.encode : MediaType → String
  | .Movie => "movie"
  | .Tv => "tv"
  | .Episode => "episode"

/-- Decoding a stored or received media-type token; any token outside the
closed set fails with `DecodeError` (serde/sqlx reject unknown variants). -/
def MediaType.decode (s : String) : Except DatabaseError MediaType :=
  if s = "movie" then .ok .Movie
  else if s = "tv" then .ok .Tv
  else if s = "episode" then .ok .Episode
  else .error .DecodeError

/-- `impl Default for MediaType` returns `Movie`. -/
def MediaType.default : MediaType := .Movie

/-- A row of the `library` table: `library(id, name, media_type)`. -/
structure LibraryRow where
  id : Int
  name : String
  media_type : MediaType
deriving Repr, DecidableEq

/-- A row of the `indexed_paths` table: `indexed_paths(location, library_id)`. -/
structure IndexedPathRow where
  location : String
  library_id : Int
deriving Repr, DecidableEq

/-- The committed database state: both tables plus the rowid generator that
backs `last_insert_rowid()` for the `library` table. -/
structure DB where
  library : List LibraryRow
  indexed_paths : List IndexedPathRow
  next_rowid : Int
deriving Repr, DecidableEq

/-- A fresh database: no rows, first assigned rowid is 1. -/
def DB.empty : DB := { library := [], indexed_paths := [], next_rowid := 1 }

/-- `SELECT id, name, media_type FROM library`. -/
def DB.selectAllLibraries (db : DB) : List LibraryRow := db.library

/-- `SELECT id, name, media_type FROM library WHERE id = ?` via `fetch_one`:
the first matching row, if any. -/
def DB.selectLibraryById (db : DB) (id : Int) : Option LibraryRow :=
  db.library.find? (fun r => r.id = id)

/-- `SELECT location FROM indexed_paths WHERE library_id = ?`. -/
def DB.selectLocations (db : DB) (lib_id : Int) : List String :=
  (db.indexed_paths.filter (fun r => r.library_id = lib_id)).map
    (fun r => r.location)

/-- `INSERT INTO library (name, media_type) VALUES ($1, $2)`; returns the new
state and `last_insert_rowid()`. -/
def DB.insertLibraryRow (db : DB) (name : String) (mt : MediaType) : DB × Int :=
  let id := db.next_rowid
  ({ db with library := db.library ++ [⟨id, name, mt⟩], next_rowid := id + 1 }, id)

/-- `INSERT INTO indexed_paths(location, library_id) VALUES ($1, $2)`. -/
def DB.insertIndexedPath (db : DB) (location : String) (lib_id : Int) : DB :=
  { db with indexed_paths := db.indexed_paths ++ [⟨location, lib_id⟩] }

/-- `DELETE FROM library WHERE id = ?`.  Removal of the dependent
`indexed_paths` rows is modelled from the spec: the schema-level cascading
constraint (`indexed_paths.library_id REFERENCES library(id)` with cascading
delete, §4.2/§6) lives in the migrations, which are not among the provided
sources.  `rows_affected()` counts only the directly deleted `library` rows. -/
def DB.deleteLibraryRow (db : DB) (id : Int) : DB × Nat :=
  let removed := db.library.filter (fun r => r.id = id)
  ({ db with
      library := db.library.filter (fun r => ¬ r.id = id),
      indexed_paths := db.indexed_paths.filter (fun r => ¬ r.library_id = id) },
    removed.length)

/-- A storage backend as seen by one statement: the committed state plus a
flag forcing the statement to fail at the storage level. -/
structure Backend where
  db : DB
  failing : Bool
deriving Repr, DecidableEq

/-- `fetch_all` of the get-all query against a backend. -/
def fetchAllLibraries (b : Backend) : Except DatabaseError (List LibraryRow) :=
  if b.failing then .error .StorageError else .ok b.db.selectAllLibraries

/-- `fetch_all` of the locations query against a backend. -/
def fetchLocations (b : Backend) (lib_id : Int) : Except DatabaseError (List String) :=
  if b.failing then .error .StorageError else .ok (b.db.selectLocations lib_id)

/-- `fetch_one` of the single-library query against a backend.  An empty
result surfaces as `NotFound` (modelled from the spec's §4.2/§7: the
crate's error mapping is outside the provided sources). -/
def fetchOneLibrary (b : Backend) (lib_id : Int) : Except DatabaseError LibraryRow :=
  if b.failing then .error .StorageError
  else
    match b.db.selectLibraryById lib_id with
    | none => .error .NotFound
    | some r => .ok r

/-- The `Library` struct of `library.rs`. -/
structure Library where
  id : Int
  name : String
  locations : List String
  media_type : MediaType
deriving Repr, DecidableEq

/-- `Library::get_all`: fetches all library rows, degrades a storage failure
to the empty list via `unwrap_or_default()`, and maps each row to a
`Library` with `locations` left empty. -/
def Library.get_all (b : Backend) : List Library :=
  (((fetchAllLibraries b).toOption.getD []).map
    (fun x => { id := x.id, name := x.name, media_type := x.media_type,
                locations := [] }))

/-- `Library::get_locations`. -/
def Library.get_locations (b : Backend) (id : Int) :
    Except DatabaseError (List String) :=
  fetchLocations b id

/-- `Library::get_one` with the two statements evaluated against possibly
different committed states `b1` and `b2`.  In the source both queries are
executed on `conn` — the pool — and not on the transaction `_tx` opened at
the top of the function, so each query reads the committed state current at
its own execution time; a concurrent committed write may land between them. -/
def Library.get_one_interleaved (b1 b2 : Backend) (lib_id : Int) :
    Except DatabaseError Library := do
  let library ← fetchOneLibrary b1 lib_id
  let locations ← fetchLocations b2 lib_id
  return { id := library.id, name := library.name,
           media_type := library.media_type, locations := locations }

/-- `Library::get_one` when no concurrent writer intervenes between the two
statements. -/
def Library.get_one (b : Backend) (lib_id : Int) : Except DatabaseError Library :=
  Library.get_one_interleaved b b lib_id

/-- `Library::delete`: a single `DELETE FROM library WHERE id = ?` returning
`rows_affected()`.  Returns the count together with the committed state
left behind. -/
def Library.delete (b : Backend) (id_to_del : Int) :
    Except DatabaseError (Nat × DB) :=
  if b.failing then .error .StorageError
  else
    let r := b.db.deleteLibraryRow id_to_del
    .ok (r.2, r.1)

/-- The `InsertableLibrary` struct of `library.rs`. -/
structure InsertableLibrary where
  name : String
  locations : List String
  media_type : MediaType
deriving Repr, DecidableEq

/-- The location-insert loop of `InsertableLibrary::insert`.  Each
`INSERT INTO indexed_paths` is executed on `conn` and therefore commits on
its own; `failLocAt = some k` injects a storage failure at the k-th
location write, at which point the `?` operator returns early, leaving the
writes already made committed. -/
def insertLocationsLoop (locations : List String) (lib_id : Int)
    (failLocAt : Option Nat) (k : Nat) (db : DB) :
    Except DatabaseError Unit × DB :=
  match locations with
  | [] => (.ok (), db)
  | loc :: rest =>
    if failLocAt = some k then (.error .StorageError, db)
    else insertLocationsLoop rest lib_id failLocAt (k + 1)
      (db.insertIndexedPath loc lib_id)

/-- `InsertableLibrary::insert`.  The source opens a transaction `tx` and
commits it at the end, but every statement is executed on `conn` (the
pool), not on `tx`: the library-row insert and each location insert run on
pooled connections in autocommit mode, so the transaction covers none of
them and its commit/rollback changes nothing.  The model therefore applies
each statement directly to the committed state and returns the result
together with the state visible afterwards. -/
def InsertableLibrary.insert (lib : InsertableLibrary) (db : DB)
    (failLocAt : Option Nat) : Except DatabaseError Int × DB :=
  let r1 := db.insertLibraryRow lib.name lib.media_type
  match insertLocationsLoop lib.locations r1.2 failLocAt 0 r1.1 with
  | (.ok _, db2) => (.ok r1.2, db2)
  | (.error e, db2) => (.error e, db2)

/-! ## Event message model (`src/src/events/src/lib.rs`) -/

/-- The `PushEventType` enum: the closed set of catalog-change notifications. -/
inductive PushEventType where
  | EventNewCard
  | EventRemoveCard
  | EventNewLibrary
  | EventRemoveLibrary
deriving Repr, DecidableEq

/-- The discriminator written by `#[serde(tag = "type")]`: the variant name. -/
def PushEventType.tag : PushEventType → String
  | .EventNewCard => "EventNewCard"
  | .EventRemoveCard => "EventRemoveCard"
  | .EventNewLibrary => "EventNewLibrary"
  | .EventRemoveLibrary => "EventRemoveLibrary"

/-- Recovering a `PushEventType` from its discriminator tag. -/
def PushEventType.ofTag (s : String) : Option PushEventType :=
  if s = "EventNewCard" then some .EventNewCard
  else if s = "EventRemoveCard" then some .EventRemoveCard
  else if s = "EventNewLibrary" then some .EventNewLibrary
  else if s = "EventRemoveLibrary" then some .EventRemoveLibrary
  else none

/-- The `Message` struct: a numeric id plus a flattened event tag. -/
structure Message where
  id : Int
  event_type : PushEventType
deriving Repr, DecidableEq

/-- `SerializableEvent::serialize` for `Message`: `serde_json::to_string`
of a struct whose `event_type` field is `#[serde(flatten)]`-merged, with the
internally tagged enum contributing its `"type"` key.  serde_json emits the
`id` field first, then the flattened tag. -/
def Message.serialize (m : Message) : String :=
  "\x7b\"id\":" ++ toString m.id ++ ",\"type\":\"" ++ m.event_type.tag ++ "\"\x7d"

/-- Consumes an expected literal from the front of a character stream. -/
def dropLit (lit : List Char) (cs : List Char) : Option (List Char) :=
  match lit, cs with
  | [], rest => some rest
  | l :: ls, c :: rest => if c = l then dropLit ls rest else none
  | _ :: _, [] => none

/-- Splits a character stream at the first occurrence of `stop`, which must
be present. -/
def takeUntil (stop : Char) (cs : List Char) : Option (List Char × List Char) :=
  match cs with
  | [] => none
  | c :: rest =>
    if c = stop then some ([], rest)
    else (takeUntil stop rest).map (fun p => (c :: p.1, p.2))

/-- The numeric value of a decimal digit character. -/
def digitVal (c : Char) : Option Nat :=
  if c = '0' then some 0 else if c = '1' then some 1
  else if c = '2' then some 2 else if c = '3' then some 3
  else if c = '4' then some 4 else if c = '5' then some 5
  else if c = '6' then some 6 else if c = '7' then some 7
  else if c = '8' then some 8 else if c = '9' then some 9
  else none

/-- Parses a non-empty run of decimal digits. -/
def parseNatChars (cs : List Char) : Option Nat :=
  match cs with
  | [] => none
  | _ =>
    cs.foldl (fun acc c => acc.bind (fun n => (digitVal c).map (fun d => n * 10 + d)))
      (some 0)

/-- Parses an optionally negated run of decimal digits. -/
def parseIntChars (cs : List Char) : Option Int :=
  match cs with
  | '-' :: rest => (parseNatChars rest).map (fun n => -(n : Int))
  | _ => (parseNatChars cs).map Int.ofNat

/-- A receiver-side parse of the serialized envelope, recovering the id and
the event tag from the payload text alone. -/
def Message.deserialize (s : String) : Option (Int × PushEventType) := do
  let cs ← dropLit ("\x7b\"id\":").data s.data
  let (idChars, cs) ← takeUntil ',' cs
  let i ← parseIntChars idChars
  let cs ← dropLit ("\"type\":\"").data cs
  let (tagChars, cs) ← takeUntil '\"' cs
  let t ← PushEventType.ofTag (String.mk tagChars)
  if cs = ("\x7d").data then some (i, t) else none

/-! ## JSON object model for the `Library` struct -/

/-- A JSON value, as produced structurally by serde before rendering. -/
inductive Json where
  | num (n : Int)
  | str (s : String)
  | arr (xs : List Json)
  | obj (fields : List (String × Json))

/-- The keys of a JSON object (empty for non-objects). -/
def Json.keys : Json → List String
  | .obj fields => fields.map Prod.fst
  | _ => []

/-- serde serialization of `MediaType`: the lowercase token. -/
def MediaType.toJson (m : MediaType) : Json := .str m.encode

/-- serde serialization of `Library`, field for field in declaration order;
the `locations` field carries `#[serde(skip_serializing_if = "Vec::is_empty")]`
and so contributes no key when the vector is empty. -/
def Library.toJson (l : Library) : Json :=
  .obj (("id", .num l.id) :: ("name", .str l.name) ::
    ((if l.locations.isEmpty then []
      else [("locations", .arr (l.locations.map Json.str))]) ++
     [("media_type", l.media_type.toJson)]))


/-! ## Helper lemmas -/

/-- Every `Library` produced by `get_all` has an empty `locations` field. -/
theorem get_all_locations_nil (b : Backend) (l : Library)
    (hl : l ∈ Library.get_all b) : l.locations = [] := by
  simp only [Library.get_all, List.mem_map] at hl
  obtain ⟨x, _, rfl⟩ := hl
  rfl

/-- A list whose image under `f` has no duplicates has at most one element
mapping to any given value. -/
theorem length_filter_le_one_of_nodup_map {α β : Type} [DecidableEq β]
    (f : α → β) (l : List α) (b : β) (h : (l.map f).Nodup) :
    (l.filter (fun a => f a = b)).length ≤ 1 := by
  induction l with
  | nil => simp
  | cons x xs ih =>
    rw [List.map_cons, List.nodup_cons] at h
    by_cases hx : f x = b
    · have hnil : xs.filter (fun a => decide (f a = b)) = [] := by
        rw [List.filter_eq_nil_iff]
        intro y hy hc
        exact h.1 (hx ▸ (of_decide_eq_true hc) ▸ List.mem_map_of_mem f hy)
      simp [List.filter, hx, hnil]
    · simpa [List.filter, hx] using ih h.2


/-! ## Claim theorems -/

/-- C5: each `MediaType` encodes to exactly its lowercase token, decoding
that token returns the original value (encode-then-decode is the identity),
and decoding any token outside the closed set fails with `DecodeError`. -/
theorem mediaType_roundtrip :
    (∀ m : MediaType, MediaType.decode (MediaType.encode m) = .ok m) ∧
    MediaType.encode .Movie = "movie" ∧
    MediaType.encode .Tv = "tv" ∧
    MediaType.encode .Episode = "episode" ∧
    MediaType.decode "movie" = .ok .Movie ∧
    MediaType.decode "tv" = .ok .Tv ∧
    MediaType.decode "episode" = .ok .Episode ∧
    (∀ s : String, s ≠ "movie" → s ≠ "tv" → s ≠ "episode" →
      MediaType.decode s = .error .DecodeError) := by
  refine ⟨fun m => by cases m <;> decide, by decide, by decide, by decide,
    by decide, by decide, by decide, fun s h1 h2 h3 => ?_⟩
  simp [MediaType.decode, h1, h2, h3]

/-- C5 witness: the round trip at `Episode` and the rejection of `"flac"`. -/
theorem mediaType_roundtrip_witness :
    MediaType.decode (MediaType.encode .Episode) = .ok .Episode ∧
    MediaType.decode "flac" = .error .DecodeError :=
  ⟨mediaType_roundtrip.1 .Episode,
   mediaType_roundtrip.2.2.2.2.2.2.2 "flac" (by decide) (by decide) (by decide)⟩

/-- C4: against a failing backend, `get_all` returns the empty list — the
same value it returns on an empty catalog — rather than an error. -/
theorem get_all_degrades_to_empty (db : DB) :
    Library.get_all ⟨db, true⟩ = [] ∧
    Library.get_all ⟨db, true⟩ = Library.get_all ⟨DB.empty, false⟩ :=
  ⟨rfl, rfl⟩

/-- C2 evaluated at its failing input: inserting a library with two
locations where the second location write fails returns an error, yet the
library row and the first location row remain visible afterwards — the
statements ran on the pool, outside the transaction, so nothing is rolled
back. -/
theorem insert_leaves_partial_state_on_location_failure :
    (InsertableLibrary.insert ⟨"Movies", ["/a", "/b"], .Movie⟩ DB.empty
        (some 1)).1 = .error .StorageError ∧
    (InsertableLibrary.insert ⟨"Movies", ["/a", "/b"], .Movie⟩ DB.empty
        (some 1)).2 =
      ⟨[⟨1, "Movies", .Movie⟩], [⟨"/a", 1⟩], 2⟩ := by
  decide

/-- C3 evaluated at a concrete interleaving: library 1 has one location;
a concurrent delete commits between `get_one`'s two statements (which run
on the pool, outside the transaction it opened), and `get_one` returns the
library row with an empty location set instead of the one location it had
at the first read. -/
theorem get_one_observes_partial_state_under_concurrent_delete :
    Library.get_one_interleaved
        ⟨⟨[⟨1, "Movies", .Movie⟩], [⟨"/a", 1⟩], 2⟩, false⟩
        ⟨((⟨[⟨1, "Movies", .Movie⟩], [⟨"/a", 1⟩], 2⟩ : DB).deleteLibraryRow 1).1,
          false⟩ 1 =
      .ok ⟨1, "Movies", [], .Movie⟩ ∧
    DB.selectLocations ⟨[⟨1, "Movies", .Movie⟩], [⟨"/a", 1⟩], 2⟩ 1 = ["/a"] := by
  decide

/-- C9: on a non-failing backend, `get_all` returns one `Library` per
persisted row, carrying its id, name and media type, and every returned
`Library` has an empty `locations` field. -/
theorem get_all_returns_every_row_with_empty_locations (db : DB) :
    Library.get_all ⟨db, false⟩ =
      db.library.map (fun x => ⟨x.id, x.name, [], x.media_type⟩) ∧
    ∀ l ∈ Library.get_all ⟨db, false⟩, l.locations = [] :=
  ⟨rfl, fun l hl => get_all_locations_nil _ l hl⟩

/-- C9 witness: the full statement at a one-row catalog. -/
theorem get_all_returns_every_row_with_empty_locations_witness :
    Library.get_all ⟨⟨[⟨1, "Movies", .Movie⟩], [⟨"/a", 1⟩], 2⟩, false⟩ =
      [⟨1, "Movies", [], .Movie⟩] ∧
    Library.locations ⟨1, "Movies", [], .Movie⟩ = [] :=
  ⟨(get_all_returns_every_row_with_empty_locations
      ⟨[⟨1, "Movies", .Movie⟩], [⟨"/a", 1⟩], 2⟩).1,
   (get_all_returns_every_row_with_empty_locations
      ⟨[⟨1, "Movies", .Movie⟩], [⟨"/a", 1⟩], 2⟩).2 _ (by decide)⟩


/-- C1: when delete completes successfully, the resulting state has no
library row with the deleted id and no location row referencing it. -/
theorem delete_cascades (db : DB) (id : Int) (n : Nat) (db2 : DB)
    (h : Library.delete ⟨db, false⟩ id = .ok (n, db2)) :
    db2.selectLibraryById id = none ∧ db2.selectLocations id = [] := by
  have h2 : db2 = (db.deleteLibraryRow id).1 := by
    simp only [Library.delete, Bool.false_eq_true, if_false, Except.ok.injEq,
      Prod.mk.injEq] at h
    exact h.2.symm
  subst h2
  constructor
  · rw [DB.selectLibraryById, List.find?_eq_none]
    intro r hr
    simp only [DB.deleteLibraryRow, List.mem_filter] at hr
    simpa using hr.2
  · rw [DB.selectLocations]
    have hnil : ((db.deleteLibraryRow id).1).indexed_paths.filter
        (fun r => r.library_id = id) = [] := by
      rw [List.filter_eq_nil_iff]
      intro r hr
      simp only [DB.deleteLibraryRow, List.mem_filter] at hr
      simpa using hr.2
    rw [hnil]
    rfl

/-- C1 witness: deleting library 1 from a one-library, one-location state. -/
theorem delete_cascades_witness :
    DB.selectLibraryById ⟨[], [], 2⟩ 1 = none ∧
    DB.selectLocations ⟨[], [], 2⟩ 1 = [] :=
  delete_cascades ⟨[⟨1, "Movies", .Movie⟩], [⟨"/a", 1⟩], 2⟩ 1 1 ⟨[], [], 2⟩
    (by decide)

/-- C7: on a non-failing backend delete always succeeds, returning the
count of deleted library rows; the count is 0 exactly when no library with
the id exists, and is at most 1 when ids are unique. -/
theorem delete_count (db : DB) (id : Int)
    (hu : (db.library.map LibraryRow.id).Nodup) :
    ∃ n db2, Library.delete ⟨db, false⟩ id = .ok (n, db2) ∧ n ≤ 1 ∧
      (n = 0 ↔ db.selectLibraryById id = none) := by
  refine ⟨(db.deleteLibraryRow id).2, (db.deleteLibraryRow id).1, rfl, ?_, ?_⟩
  · exact length_filter_le_one_of_nodup_map LibraryRow.id db.library id hu
  · show (db.library.filter (fun r => r.id = id)).length = 0 ↔
      db.selectLibraryById id = none
    rw [List.length_eq_zero, List.filter_eq_nil_iff, DB.selectLibraryById,
      List.find?_eq_none]

/-- C7 witness: deleting an absent id from a one-library state returns 0. -/
theorem delete_count_witness :
    ∃ n db2,
      Library.delete ⟨⟨[⟨1, "Movies", MediaType.Movie⟩], [], 2⟩, false⟩ 5 =
        .ok (n, db2) ∧ n ≤ 1 ∧
      (n = 0 ↔
        DB.selectLibraryById ⟨[⟨1, "Movies", MediaType.Movie⟩], [], 2⟩ 5 = none) :=
  delete_count ⟨[⟨1, "Movies", MediaType.Movie⟩], [], 2⟩ 5 (by decide)


/-- C6: `get_one` fails with `StorageError` on lower-level failure, fails
with `NotFound` exactly when no library row with the id exists, and on
success returns the library fully populated: the row's id, name and media
type together with every location persisted for that id. -/
theorem get_one_spec (db : DB) (id : Int) :
    Library.get_one ⟨db, true⟩ id = .error .StorageError ∧
    (Library.get_one ⟨db, false⟩ id = .error .NotFound ↔
      db.selectLibraryById id = none) ∧
    (∀ row, db.selectLibraryById id = some row →
      Library.get_one ⟨db, false⟩ id =
        .ok ⟨row.id, row.name, db.selectLocations id, row.media_type⟩) := by
  refine ⟨rfl, ?_, ?_⟩
  · cases hfind : db.selectLibraryById id <;>
      simp [Library.get_one, Library.get_one_interleaved, fetchOneLibrary,
        fetchLocations, hfind, Bind.bind, Except.bind, Pure.pure, Except.pure]
  · intro row hrow
    simp [Library.get_one, Library.get_one_interleaved, fetchOneLibrary,
      fetchLocations, hrow, Bind.bind, Except.bind, Pure.pure, Except.pure]

/-- C6 witness: the populated success case at a one-library state. -/
theorem get_one_spec_witness :
    Library.get_one ⟨⟨[⟨1, "Movies", MediaType.Movie⟩], [⟨"/a", 1⟩], 2⟩, false⟩ 1 =
      .ok ⟨1, "Movies",
        DB.selectLocations ⟨[⟨1, "Movies", MediaType.Movie⟩], [⟨"/a", 1⟩], 2⟩ 1,
        MediaType.Movie⟩ :=
  (get_one_spec ⟨[⟨1, "Movies", MediaType.Movie⟩], [⟨"/a", 1⟩], 2⟩ 1).2.2
    ⟨1, "Movies", MediaType.Movie⟩ (by decide)


/-- C10: the serialized `Library` object carries a `"locations"` key exactly
when the locations vector is non-empty; in particular every library returned
by `get_all` serializes without a `"locations"` key. -/
theorem library_json_omits_empty_locations :
    (∀ l : Library, "locations" ∈ (Library.toJson l).keys ↔ l.locations ≠ []) ∧
    (∀ (db : DB), ∀ l ∈ Library.get_all ⟨db, false⟩,
      "locations" ∉ (Library.toJson l).keys) := by
  have hkeys : ∀ l : Library, l.locations ≠ [] →
      (Library.toJson l).keys = ["id", "name", "locations", "media_type"] := by
    intro l hne
    obtain ⟨lid, lname, llocs, lmt⟩ := l
    cases llocs with
    | nil => exact absurd rfl hne
    | cons a as => rfl
  have hkeys0 : ∀ l : Library, l.locations = [] →
      (Library.toJson l).keys = ["id", "name", "media_type"] := by
    intro l he
    obtain ⟨lid, lname, llocs, lmt⟩ := l
    cases llocs with
    | nil => rfl
    | cons a as => exact absurd he (by simp)
  have key : ∀ l : Library,
      "locations" ∈ (Library.toJson l).keys ↔ l.locations ≠ [] := by
    intro l
    by_cases he : l.locations = []
    · rw [hkeys0 l he, he]
      decide
    · rw [hkeys l he]
      simp [he]
  refine ⟨key, fun db l hl => ?_⟩
  rw [key l, get_all_locations_nil _ l hl]
  simp

/-- C10 witness: key lists at an empty and a non-empty locations vector,
and a concrete `get_all` result. -/
theorem library_json_omits_empty_locations_witness :
    ("locations" ∈ (Library.toJson ⟨1, "Movies", ["/a"], .Movie⟩).keys ↔
      (["/a"] : List String) ≠ []) ∧
    "locations" ∉
      (Library.toJson ⟨1, "Movies", [], MediaType.Movie⟩).keys :=
  ⟨library_json_omits_empty_locations.1 ⟨1, "Movies", ["/a"], .Movie⟩,
   library_json_omits_empty_locations.2 ⟨[⟨1, "Movies", .Movie⟩], [], 2⟩
     ⟨1, "Movies", [], MediaType.Movie⟩ (by decide)⟩

/-- C8: `serialize` is a total function whose output embeds the decimal id
text and the discriminator tag as substrings; the tag determines the event
kind uniquely; and the serialized form of `Message` with id 7 and
`EventNewLibrary` decodes back to tag `EventNewLibrary` and id 7. -/
theorem message_serialize_embeds_id_and_tag :
    (∀ m : Message, (toString m.id).data <:+: (Message.serialize m).data ∧
      (m.event_type.tag).data <:+: (Message.serialize m).data) ∧
    (∀ e1 e2 : PushEventType, e1.tag = e2.tag → e1 = e2) ∧
    Message.deserialize (Message.serialize ⟨7, .EventNewLibrary⟩) =
      some (7, .EventNewLibrary) := by
  refine ⟨fun m => ⟨?_, ?_⟩, fun e1 e2 => by cases e1 <;> cases e2 <;> decide,
    by decide⟩
  · exact ⟨("\x7b\"id\":").data,
      (",\"type\":\"" ++ m.event_type.tag ++ "\"\x7d").data,
      by simp [Message.serialize, String.data_append]⟩
  · exact ⟨("\x7b\"id\":" ++ toString m.id ++ ",\"type\":\"").data,
      ("\"\x7d").data,
      by simp [Message.serialize, String.data_append]⟩

/-- C8 witness: the id substring fact at the scenario message and tag
injectivity at `EventNewCard`. -/
theorem message_serialize_embeds_id_and_tag_witness :
    (toString (Message.id ⟨7, .EventNewLibrary⟩)).data <:+:
      (Message.serialize ⟨7, .EventNewLibrary⟩).data ∧
    PushEventType.EventNewCard = PushEventType.EventNewCard :=
  ⟨(message_serialize_embeds_id_and_tag.1 ⟨7, .EventNewLibrary⟩).1,
   message_serialize_embeds_id_and_tag.2.1 .EventNewCard .EventNewCard rfl⟩

end Dim
